import Mathlib

/-!
Shallow embedding of `src/pypolestar/polestar_api.py` (class `PolestarApi`).

Modelling conventions:
- Python JSON-like values are the inductive `Json`; Python `None` is `Json.null`
  and Python `False` is `Json.bool false`, so the two are distinguishable.
- Python truthiness is `truthy`.
- A raising Python call is `Except PyError _`; `PyError` lists the exception
  classes that can occur in the embedded methods.
- `self.cache_data` is modelled as `Option Cache`: `none` means the instance
  has no such attribute (reading it raises `AttributeError`), `some c` means
  the attribute holds the dict `c`.  Likewise `self.updating : Option Bool`.
- `datetime.now()` instants and `timedelta(seconds=CACHE_TIME)` are natural
  numbers of seconds.  `CACHE_TIME` is imported from `const.py`, whose value is
  configuration; every definition that needs it takes it as the explicit
  parameter `ttl`.
- Methods that `await` external collaborators (the aiohttp session, the
  `PolestarAuth` object) take the collaborator's result as an argument; the
  collaborators themselves are out of scope.
-/

/-- JSON-like Python values, as produced by `result.json()`. -/
inductive Json where
  | null
  | bool (b : Bool)
  | num (n : Int)
  | str (s : String)
  | arr (elems : List Json)
  | obj (fields : List (String × Json))

/-- Python exceptions that the embedded methods can raise. `transportError`
stands for any failure of the aiohttp session itself. -/
inductive PyError where
  | keyError
  | attributeError
  | typeError
  | indexError
  | transportError
  | polestarApiException (msg : String)
deriving DecidableEq

/-- Python truthiness of a JSON-like value (`if data:` etc.). -/
def truthy : Json → Bool
  | .null => false
  | .bool b => b
  | .num n => n != 0
  | .str s => s != ""
  | .arr elems => !elems.isEmpty
  | .obj fields => !fields.isEmpty

/-- Python `data[k]` for a string key `k`: `KeyError` when `data` is a dict
without the key, `TypeError` when `data` is not subscriptable by a string. -/
def pyIndexStr (data : Json) (k : String) : Except PyError Json :=
  match data with
  | .obj fields =>
    match fields.lookup k with
    | some v => .ok v
    | none => .error .keyError
  | _ => .error .typeError

/-- Python `data.get(k)`: `None` when the key is absent; `AttributeError` when
`data` is not a dict (no `.get` method). -/
def pyGet (data : Json) (k : String) : Except PyError Json :=
  match data with
  | .obj fields => .ok ((fields.lookup k).getD .null)
  | _ => .error .attributeError

/-- Python `xs[0]`. -/
def pyIndexZero : Json → Except PyError Json
  | .arr [] => .error .indexError
  | .arr (x :: _) => .ok x
  | .obj _ => .error .keyError
  | .str s => if s.isEmpty then .error .indexError else .ok (.str (s.take 1))
  | _ => .error .typeError

/-- Python `len(data)`: defined for sized values, `TypeError` otherwise. -/
def pyLen : Json → Except PyError Nat
  | .arr elems => .ok elems.length
  | .obj fields => .ok fields.length
  | .str s => .ok s.length
  | _ => .error .typeError

/-- Python `'/' in field_name` (membership of a character in a string). -/
def containsSlash (s : String) : Bool :=
  s.data.any (· = '/')

/-- Helper for `field_name.split('/')`: split a character list at a separator. -/
def splitCharList (sep : Char) : List Char → List Char → List (List Char)
  | [], acc => [acc.reverse]
  | c :: cs, acc =>
    if c = sep then acc.reverse :: splitCharList sep cs []
    else splitCharList sep cs (c :: acc)

/-- Python `field_name.split('/')`. -/
def splitSlash (s : String) : List String :=
  (splitCharList '/' s.data []).map String.mk

/-- The `for key in field_name: ...` loop of `_get_field_name_value` when
`field_name` is a list after the split: at every step (the final one included)
`data.get(key)` is computed; a truthy value is descended into, anything else
(absent key or falsy value) returns `None`.  `data.get` on a non-dict raises
`AttributeError`. -/
def walkFields : List String → Json → Except PyError Json
  | [], data => .ok data
  | k :: ks, data =>
    match data with
    | .obj fields =>
      match fields.lookup k with
      | some v => if truthy v then walkFields ks v else .ok .null
      | none => .ok .null
    | _ => .error .attributeError

/-- `PolestarApi._get_field_name_value(field_name, data)`.  `field_name` is
`none` for Python `None`.  A path containing `'/'` is split and walked with
`walkFields`; a single-segment path is indexed directly via `data[field_name]`
(which can raise). A falsy `data` returns `None`. -/
def getFieldNameValue (fieldName : Option String) (data : Json) : Except PyError Json :=
  match fieldName with
  | none => .ok .null
  | some f =>
    match data with
    | .null => .ok .null
    | d =>
      if truthy d then
        if containsSlash f then walkFields (splitSlash f) d
        else pyIndexStr d f
      else .ok .null

/-- A cache entry, the dict `{'data': ..., 'timestamp': ...}` written by the
refresh methods.  As a two-key dict it is always truthy. -/
structure CacheEntry where
  data : Json
  timestamp : Nat

/-- The `self.cache_data` dict: query name to entry. -/
abbrev Cache := List (String × CacheEntry)

/-- Python dict assignment `cache[q] = e`: overwrites any previous binding. -/
def cacheInsert (c : Cache) (q : String) (e : CacheEntry) : Cache :=
  (q, e) :: c.filter (fun p => p.1 ≠ q)

/-- `PolestarApi.get_latest_data(query, field_name)`.
`cacheData` is `none` when the instance lacks the `cache_data` attribute
(reading `self.cache_data` then raises `AttributeError`).  The guard is
`if self.cache_data and self.cache_data[query]:` — an empty dict short-circuits
to the implicit `return None`, but a non-empty dict without the key raises
`KeyError` from the subscript.  An entry whose `data` is `None` returns the
Python boolean `False`.  No timestamp or TTL is consulted anywhere. -/
def get_latest_data (cacheData : Option Cache) (query : String)
    (fieldName : Option String) : Except PyError Json :=
  match cacheData with
  | none => .error .attributeError
  | some c =>
    if c.isEmpty then .ok .null
    else
      match c.lookup query with
      | none => .error .keyError
      | some entry =>
        match entry.data with
        | .null => .ok (.bool false)
        | d => getFieldNameValue fieldName d

/-- `PolestarApi.get_cache_data(query, field_name, skip_cache)` at instant
`now` with TTL `ttl` (seconds, `CACHE_TIME`).  The entry lookup uses
`self.cache_data.get(query)`, so a missing entry falls through to
`return None`.  With `skip_cache` false the entry is used only when
`timestamp + CACHE_TIME > now`; a stale entry also falls through to
`return None`.  The read never mutates the cache (it is a pure projection). -/
def get_cache_data (cacheData : Option Cache) (now ttl : Nat)
    (query : Option String) (fieldName : Option String)
    (skipCache : Bool) : Except PyError Json :=
  match query with
  | none => .ok .null
  | some q =>
    match cacheData with
    | none => .error .attributeError
    | some c =>
      if c.isEmpty then .ok .null
      else
        match c.lookup q with
        | none => .ok .null
        | some entry =>
          if skipCache = false then
            if now < entry.timestamp + ttl then
              match entry.data with
              | .null => .ok .null
              | d => getFieldNameValue fieldName d
            else .ok .null
          else
            match entry.data with
            | .null => .ok .null
            | d => getFieldNameValue fieldName d

/-- The attributes of a `PolestarApi` instance that the specified core reads
and writes.  Each is an `Option`: `none` means the attribute has never been
assigned, so reading it raises `AttributeError`. -/
structure ApiState where
  cache_data : Option Cache
  vin : Option String
  id : Option String
  name : Option String
  updating : Option Bool

/-- `PolestarApi.__init__(session, username, password)` as far as the modelled
attributes are concerned: it assigns `username`, `password`, `_session` and
`auth` only — none of `cache_data`, `vin`, `id`, `name`, `updating` is
created. -/
def polestarApiConstruct : ApiState :=
  { cache_data := none, vin := none, id := none, name := none, updating := none }

/-- `result['data']['getConsumerCarsV2']` as computed in `init`. -/
def consumerCars (result : Json) : Except PyError Json := do
  let d ← pyIndexStr result "data"
  pyIndexStr d "getConsumerCarsV2"

/-- `PolestarApi.init()` after the awaited externals: `result` is the JSON
returned by `get_vehicle_data()` and `now` the `datetime.now()` instant of the
cache write.  Returns the instance state after the call together with the
exception it raised, if any (mutations made before a raise persist). -/
def init (st : ApiState) (result : Json) (now : Nat) : ApiState × Option PyError :=
  match consumerCars result with
  | .error e => (st, some e)
  | .ok cars =>
    match cars with
    | .null => (st, some (.polestarApiException "No cars found in account"))
    | cs =>
      match pyLen cs with
      | .error e => (st, some e)
      | .ok n =>
        if n = 0 then (st, some (.polestarApiException "No cars found in account"))
        else
          match pyIndexZero cs with
          | .error e => (st, some e)
          | .ok car0 =>
            match st.cache_data with
            | none => (st, some .attributeError)
            | some c =>
              let st1 := { st with
                cache_data := some (cacheInsert c "getConsumerCarsV2" ⟨car0, now⟩) }
              match pyIndexStr car0 "vin" with
              | .error e => (st1, some e)
              | .ok v =>
                match v with
                | .str s =>
                  ({ st1 with
                      vin := some s
                      id := some (s.take 8)
                      name := some ("Polestar " ++ s.takeRight 4) }, none)
                | _ => (st1, some .typeError)

/-- `result['data'][queryName]` as computed by the refresh methods. -/
def refreshPayload (result : Json) (queryName : String) : Except PyError Json := do
  let d ← pyIndexStr result "data"
  pyIndexStr d queryName

/-- The cache-writing tail shared by `getOdometerData` and `getBatteryData`:
given the awaited GraphQL `fetch` outcome, store
`result['data'][queryName]` under `queryName` with timestamp `now`. -/
def refreshCache (st : ApiState) (fetch : Except PyError Json)
    (queryName : String) (now : Nat) : ApiState × Option PyError :=
  match fetch with
  | .error e => (st, some e)
  | .ok result =>
    match refreshPayload result queryName with
    | .error e => (st, some e)
    | .ok sub =>
      match st.cache_data with
      | none => (st, some .attributeError)
      | some c =>
        ({ st with cache_data := some (cacheInsert c queryName ⟨sub, now⟩) }, none)

/-- `PolestarApi.getOdometerData()`; `fetch` is the awaited result of
`get_odo_data()`. -/
def getOdometerData (st : ApiState) (fetch : Except PyError Json)
    (now : Nat) : ApiState × Option PyError :=
  refreshCache st fetch "getOdometerData" now

/-- `PolestarApi.getBatteryData()`; `fetch` is the awaited result of
`get_battery_data()`. -/
def getBatteryData (st : ApiState) (fetch : Except PyError Json)
    (now : Nat) : ApiState × Option PyError :=
  refreshCache st fetch "getBatteryData" now

/-- Outcome of a `get_ev_data()` call: the instance state afterwards, the
refresh queries that were actually issued (in order), and the exception that
escaped, if any. -/
structure EvOutcome where
  state : ApiState
  queries : List String
  error : Option PyError

/-- `PolestarApi.get_ev_data()`.  `odoFetch` and `batFetch` are the awaited
results of `get_odo_data()` and `get_battery_data()`.  The guard is
`if self.updating is True: return` (reading a never-assigned `updating`
attribute raises `AttributeError`).  The flag is set to `True` before the two
refreshes and reset to `False` only after both succeed — there is no
`try/finally`, so an exception leaves it `True`. -/
def get_ev_data (st : ApiState) (odoFetch batFetch : Except PyError Json)
    (now : Nat) : EvOutcome :=
  match st.updating with
  | none => ⟨st, [], some .attributeError⟩
  | some true => ⟨st, [], none⟩
  | some false =>
    let st1 := { st with updating := some true }
    match getOdometerData st1 odoFetch now with
    | (st2, some e) => ⟨st2, ["getOdometerData"], some e⟩
    | (st2, none) =>
      match getBatteryData st2 batFetch now with
      | (st3, some e) => ⟨st3, ["getOdometerData", "getBatteryData"], some e⟩
      | (st3, none) =>
        ⟨{ st3 with updating := some false },
          ["getOdometerData", "getBatteryData"], none⟩

/-- The call `await self.get_token()` at line 121 of `get_graph_ql`: the class
`PolestarApi` defines no attribute or method named `get_token` (token
acquisition lives on `PolestarAuth`, reachable only as `self.auth.get_token`),
so the attribute lookup raises `AttributeError`. -/
def selfGetToken : Except PyError Unit := .error .attributeError

/-- The auth-failure test of `get_graph_ql`: `resultData.get('errors')` must be
truthy and `resultData['errors'][0]['message'] == 'User not authenticated'`.
Returns `ok true` for the retry branch, `ok false` when there are no errors or
the first message differs (then only logged). -/
def isAuthErrorResp (resultData : Json) : Except PyError Bool :=
  match pyGet resultData "errors" with
  | .error e => .error e
  | .ok errs =>
    if truthy errs then
      match pyIndexZero errs with
      | .error e => .error e
      | .ok e0 =>
        match pyIndexStr e0 "message" with
        | .error e => .error e
        | .ok m =>
          match m with
          | .str s => .ok (s == "User not authenticated")
          | _ => .ok false
    else .ok false

/-- Outcome of `get_graph_ql`: how many GET requests were issued, how many
token refreshes completed, and the returned value or escaped exception. -/
structure GqlOutcome where
  requests : Nat
  tokenRefreshes : Nat
  result : Except PyError Json

/-- `PolestarApi.get_graph_ql(params)`.  `responses` is the stream of JSON
bodies the transport returns for the successive GET requests (empty when the
transport itself fails).  On the sentinel auth error the code runs
`await self.get_token()` (see `selfGetToken`) and then recurses; any other
error list is logged and the response returned as-is. -/
def get_graph_ql : List Json → GqlOutcome
  | [] => ⟨1, 0, .error .transportError⟩
  | r :: rest =>
    match isAuthErrorResp r with
    | .error e => ⟨1, 0, .error e⟩
    | .ok true =>
      match selfGetToken with
      | .error e => ⟨1, 0, .error e⟩
      | .ok _ =>
        let retried := get_graph_ql rest
        ⟨1 + retried.requests, 1 + retried.tokenRefreshes, retried.result⟩
    | .ok false => ⟨1, 0, .ok r⟩

/-! ## Helper lemmas -/

/-- A `get_ev_data` call that finds the in-flight flag set to `True` returns
at once: same state, no queries issued, no exception. -/
theorem get_ev_data_noop (st : ApiState) (odoFetch batFetch : Except PyError Json)
    (now : Nat) (h : st.updating = some true) :
    get_ev_data st odoFetch batFetch now = ⟨st, [], none⟩ := by
  simp only [get_ev_data, h]

/-- `refreshCache` never touches the `updating` attribute. -/
theorem refreshCache_updating (st : ApiState) (fetch : Except PyError Json)
    (queryName : String) (now : Nat) :
    (refreshCache st fetch queryName now).1.updating = st.updating := by
  unfold refreshCache
  rcases fetch with e | r
  · rfl
  · rcases hp : refreshPayload r queryName with e | sub
    · simp [hp]
    · rcases hc : st.cache_data with _ | c <;> simp [hp, hc]

/-! ## Claim theorems -/

/-- A GraphQL response body carrying the authentication-failure sentinel. -/
def authFailureResp : Json :=
  .obj [("errors", .arr [.obj [("message", .str "User not authenticated")]])]

/-- A well-formed follow-up response with no error list. -/
def retriedResp : Json :=
  .obj [("data", .obj [("getOdometerData", .obj [("odometerMeters", .num 42)])])]

/-- Claim C1: a response whose first error message is exactly
"User not authenticated" is supposed to cause one token refresh and one
retried request, returning the retried result.  In the code the retry branch
runs `await self.get_token()`, but `PolestarApi` defines no `get_token`
(it lives on `self.auth`), so the call raises `AttributeError` after the
single original request, with zero token refreshes and no retry — the retried
response is never requested. -/
theorem c1_auth_retry_crashes :
    get_graph_ql [authFailureResp, retriedResp]
      = ⟨1, 0, .error .attributeError⟩ := rfl

/-- Claim C6: `PolestarApi.__init__` is supposed to create the cache empty,
with every read yielding the no-entry result; in the code the constructor
never assigns `self.cache_data`, so immediately after construction the
attribute is missing and every read path raises `AttributeError` instead. -/
theorem c6_construct_cache_missing :
    polestarApiConstruct.cache_data = none
  ∧ get_latest_data polestarApiConstruct.cache_data "getOdometerData"
      (some "odometerMeters") = .error .attributeError
  ∧ get_cache_data polestarApiConstruct.cache_data 0 30 (some "getOdometerData")
      (some "odometerMeters") false = .error .attributeError
  ∧ get_cache_data polestarApiConstruct.cache_data 0 30 (some "getOdometerData")
      (some "odometerMeters") true = .error .attributeError :=
  ⟨rfl, rfl, rfl, rfl⟩

/-- Claim C8: when the in-flight flag `updating` is already `True`, a call to
`get_ev_data` is a no-op: the state is unchanged, no refresh query is issued,
and no exception escapes. -/
theorem c8_refresh_inflight_noop (st : ApiState)
    (odoFetch batFetch : Except PyError Json) (now : Nat)
    (h : st.updating = some true) :
    get_ev_data st odoFetch batFetch now = ⟨st, [], none⟩ :=
  get_ev_data_noop st odoFetch batFetch now h

theorem c8_witness :
    get_ev_data ⟨some [], none, none, none, some true⟩ (.ok retriedResp)
      (.ok retriedResp) 5
      = ⟨⟨some [], none, none, none, some true⟩, [], none⟩ :=
  c8_refresh_inflight_noop _ _ _ _ rfl

/-- Claim C9: when a cache entry exists for the query and its `data` is null,
`get_latest_data` returns the Python boolean `False` — distinct from `None`
(the no-entry result) and from any resolved field value. -/
theorem c9_null_data_reads_false (c : Cache) (q : String) (f : Option String)
    (e : CacheEntry) (hq : c.lookup q = some e) (hd : e.data = Json.null) :
    get_latest_data (some c) q f = .ok (.bool false) := by
  cases c with
  | nil => simp [List.lookup] at hq
  | cons p tl => simp [get_latest_data, hq, hd]

theorem c9_witness :
    get_latest_data (some [("getBatteryData", ⟨Json.null, 7⟩)]) "getBatteryData"
      (some "batteryChargeLevelPercentage") = .ok (.bool false) :=
  c9_null_data_reads_false _ _ _ ⟨Json.null, 7⟩ rfl rfl

/-- Claim C10: if `get_ev_data` enters with the flag clear and one of the
refreshes raises, the escaped exception leaves `updating` stuck at `True`
(there is no restore on the error path), so every subsequent `get_ev_data`
call on that state returns immediately without fetching. -/
theorem c10_error_leaves_flag_stuck (st : ApiState)
    (odoFetch batFetch : Except PyError Json) (now : Nat)
    (h : st.updating = some false)
    (herr : (get_ev_data st odoFetch batFetch now).error ≠ none) :
    (get_ev_data st odoFetch batFetch now).state.updating = some true
  ∧ ∀ (odoFetch' batFetch' : Except PyError Json) (now' : Nat),
      get_ev_data (get_ev_data st odoFetch batFetch now).state odoFetch'
          batFetch' now'
        = ⟨(get_ev_data st odoFetch batFetch now).state, [], none⟩ := by
  have hstuck : (get_ev_data st odoFetch batFetch now).state.updating = some true := by
    simp only [get_ev_data, h] at herr ⊢
    rcases h1 : getOdometerData { st with updating := some true } odoFetch now
      with ⟨st2, e1⟩
    have hu2 : st2.updating = some true := by
      have hr := refreshCache_updating { st with updating := some true } odoFetch
        "getOdometerData" now
      rw [show getOdometerData { st with updating := some true } odoFetch now
          = refreshCache { st with updating := some true } odoFetch
            "getOdometerData" now from rfl] at h1
      rw [h1] at hr
      exact hr
    simp only [h1] at herr ⊢
    rcases e1 with _ | e1
    · rcases h2 : getBatteryData st2 batFetch now with ⟨st3, e2⟩
      have hu3 : st3.updating = some true := by
        have hr := refreshCache_updating st2 batFetch "getBatteryData" now
        rw [show getBatteryData st2 batFetch now
            = refreshCache st2 batFetch "getBatteryData" now from rfl] at h2
        rw [h2] at hr
        rw [hr, hu2]
      simp only [h2] at herr ⊢
      rcases e2 with _ | e2
      · simp at herr
      · exact hu3
    · exact hu2
  exact ⟨hstuck, fun o b n => get_ev_data_noop _ o b n hstuck⟩

theorem c10_witness :
    ((get_ev_data ⟨some [], none, none, none, some false⟩
        (.error .transportError) (.ok retriedResp) 3).state.updating = some true)
  ∧ get_ev_data (get_ev_data ⟨some [], none, none, none, some false⟩
        (.error .transportError) (.ok retriedResp) 3).state (.ok retriedResp)
        (.ok retriedResp) 9
      = ⟨(get_ev_data ⟨some [], none, none, none, some false⟩
          (.error .transportError) (.ok retriedResp) 3).state, [], none⟩ :=
  ⟨(c10_error_leaves_flag_stuck _ _ _ _ rfl (by simp [get_ev_data,
      getOdometerData, refreshCache])).1,
   (c10_error_leaves_flag_stuck _ _ _ _ rfl (by simp [get_ev_data,
      getOdometerData, refreshCache])).2 _ _ 9⟩

/-! ## More helper lemmas on the cache readers -/

/-- `get_latest_data` on a non-empty cache dict that lacks the query key
raises `KeyError` (the guard subscripts `self.cache_data[query]`). -/
theorem get_latest_data_missing (c : Cache) (q : String) (f : Option String)
    (hne : c ≠ []) (hq : c.lookup q = none) :
    get_latest_data (some c) q f = .error .keyError := by
  cases c with
  | nil => exact absurd rfl hne
  | cons p tl => simp [get_latest_data, hq]

/-- `get_latest_data` on an entry whose `data` is null returns `False`. -/
theorem get_latest_data_null (c : Cache) (q : String) (f : Option String)
    (e : CacheEntry) (hq : c.lookup q = some e) (hd : e.data = Json.null) :
    get_latest_data (some c) q f = .ok (.bool false) := by
  cases c with
  | nil => simp [List.lookup] at hq
  | cons p tl => simp [get_latest_data, hq, hd]

/-- `get_latest_data` on an entry with non-null `data` resolves the field via
`_get_field_name_value`, with no freshness consideration. -/
theorem get_latest_data_found (c : Cache) (q : String) (f : Option String)
    (e : CacheEntry) (hq : c.lookup q = some e) (hd : e.data ≠ Json.null) :
    get_latest_data (some c) q f = getFieldNameValue f e.data := by
  obtain ⟨d, ts⟩ := e
  cases c with
  | nil => simp [List.lookup] at hq
  | cons p tl =>
    cases d with
    | null => simp at hd
    | bool b => simp [get_latest_data, hq]
    | num n => simp [get_latest_data, hq]
    | str s => simp [get_latest_data, hq]
    | arr elems => simp [get_latest_data, hq]
    | obj fields => simp [get_latest_data, hq]

/-- `get_cache_data` on a cache that has no entry for the query returns
`None` without raising (`self.cache_data.get(query)` falls through). -/
theorem get_cache_data_missing (c : Cache) (q : String) (f : Option String)
    (now ttl : Nat) (sc : Bool) (hq : c.lookup q = none) :
    get_cache_data (some c) now ttl (some q) f sc = .ok Json.null := by
  cases c with
  | nil => rfl
  | cons p tl => simp [get_cache_data, hq]

/-- `get_cache_data` without `skip_cache` on a stale entry returns `None`. -/
theorem get_cache_data_stale (c : Cache) (q : String) (f : Option String)
    (now ttl : Nat) (e : CacheEntry) (hq : c.lookup q = some e)
    (hs : e.timestamp + ttl ≤ now) :
    get_cache_data (some c) now ttl (some q) f false = .ok Json.null := by
  have hnf : ¬ now < e.timestamp + ttl := not_lt.mpr hs
  cases c with
  | nil => simp [List.lookup] at hq
  | cons p tl => simp [get_cache_data, hq, hnf]

/-! ## Remaining claim theorems -/

/-- Claim C2: after a cache write of `d` under `q` at `t0` (the shape written
by `getOdometerData`/`getBatteryData`), a `skip_cache`-false read at `t`
returns exactly the field resolution of `d` while `t < t0 + CACHE_TIME`, and
`None` as soon as `t ≥ t0 + CACHE_TIME` — strict inequality, fixed TTL, and
the read being a pure projection there is no sliding expiry. -/
theorem c2_ttl_freshness (c : Cache) (q : String) (d : Json) (t0 ttl t : Nat)
    (f : Option String) (h0 : t0 ≤ t) :
    (t < t0 + ttl →
      get_cache_data (some (cacheInsert c q ⟨d, t0⟩)) t ttl (some q) f false
        = getFieldNameValue f d)
  ∧ (t0 + ttl ≤ t →
      get_cache_data (some (cacheInsert c q ⟨d, t0⟩)) t ttl (some q) f false
        = .ok Json.null) := by
  have hlook : (cacheInsert c q ⟨d, t0⟩).lookup q = some ⟨d, t0⟩ := by
    simp [cacheInsert, List.lookup]
  constructor
  · intro hf
    cases d with
    | null =>
      have h2 : getFieldNameValue f Json.null = .ok Json.null := by
        cases f <;> rfl
      rw [h2]
      simp [get_cache_data, cacheInsert, List.lookup, hf]
    | bool b => simp [get_cache_data, cacheInsert, List.lookup, hf]
    | num n => simp [get_cache_data, cacheInsert, List.lookup, hf]
    | str s => simp [get_cache_data, cacheInsert, List.lookup, hf]
    | arr elems => simp [get_cache_data, cacheInsert, List.lookup, hf]
    | obj fields => simp [get_cache_data, cacheInsert, List.lookup, hf]
  · intro hs
    have hnf : ¬ t < t0 + ttl := not_lt.mpr hs
    simp [get_cache_data, cacheInsert, List.lookup, hnf]

theorem c2_witness :
    (get_cache_data (some (cacheInsert [] "getBatteryData"
        ⟨Json.obj [("batteryChargeLevelPercentage", Json.num 80)], 100⟩)) 129 30
        (some "getBatteryData") (some "batteryChargeLevelPercentage") false
      = getFieldNameValue (some "batteryChargeLevelPercentage")
          (Json.obj [("batteryChargeLevelPercentage", Json.num 80)]))
  ∧ (get_cache_data (some (cacheInsert [] "getBatteryData"
        ⟨Json.obj [("batteryChargeLevelPercentage", Json.num 80)], 100⟩)) 130 30
        (some "getBatteryData") (some "batteryChargeLevelPercentage") false
      = .ok Json.null) :=
  ⟨(c2_ttl_freshness [] "getBatteryData"
      (Json.obj [("batteryChargeLevelPercentage", Json.num 80)]) 100 30 129
      (some "batteryChargeLevelPercentage") (by norm_num)).1 (by norm_num),
   (c2_ttl_freshness [] "getBatteryData"
      (Json.obj [("batteryChargeLevelPercentage", Json.num 80)]) 100 30 130
      (some "batteryChargeLevelPercentage") (by norm_num)).2 (by norm_num)⟩

/-- A document whose final path segment holds the falsy value `0`. -/
def nestedZeroDoc : Json := Json.obj [("a", Json.obj [("b", Json.num 0)])]

/-- Claim C3, counterexample: on the multi-segment path `"a/b"` the truthiness
test is applied to the final segment too, so the falsy final value `0` yields
`None` instead of being returned as-is. -/
theorem c3_counterexample :
    getFieldNameValue (some "a/b") nestedZeroDoc = .ok Json.null
  ∧ getFieldNameValue (some "a/b") nestedZeroDoc ≠ .ok (Json.num 0) := by
  have h1 : getFieldNameValue (some "a/b") nestedZeroDoc = .ok Json.null := rfl
  refine ⟨h1, ?_⟩
  rw [h1]
  simp

/-- Claim C3 (amended): falsy values at intermediate path steps are dead ends
returning `None`; for a path containing `'/'` the final segment is subject to
the same truthiness test, so a falsy final value also yields `None`; only a
single-segment path (no `'/'`) returns the value at its segment as-is even if
falsy. -/
theorem c3_amended_truthiness_policy :
    (∀ (f : String) (fields : List (String × Json)) (v : Json),
        containsSlash f = false → fields.lookup f = some v →
        getFieldNameValue (some f) (Json.obj fields) = .ok v)
  ∧ (∀ (f : String) (d : Json), containsSlash f = true → truthy d = true →
        getFieldNameValue (some f) d = walkFields (splitSlash f) d)
  ∧ (∀ (k : String) (ks : List String) (fields : List (String × Json))
        (v : Json), fields.lookup k = some v → truthy v = false →
        walkFields (k :: ks) (Json.obj fields) = .ok Json.null) := by
  refine ⟨?_, ?_, ?_⟩
  · intro f fields v hslash hlook
    cases fields with
    | nil => simp [List.lookup] at hlook
    | cons p tl => simp [getFieldNameValue, truthy, hslash, pyIndexStr, hlook]
  · intro f d hslash htr
    cases d with
    | null => simp [truthy] at htr
    | bool b => simp [getFieldNameValue, hslash, htr]
    | num n => simp [getFieldNameValue, hslash, htr]
    | str s => simp [getFieldNameValue, hslash, htr]
    | arr elems => simp [getFieldNameValue, hslash, htr]
    | obj fields => simp [getFieldNameValue, hslash, htr]
  · intro k ks fields v hlook hfalse
    simp [walkFields, hlook, hfalse]

theorem c3_amended_witness :
    (getFieldNameValue (some "b") (Json.obj [("b", Json.num 0)])
      = .ok (Json.num 0))
  ∧ (getFieldNameValue (some "a/b") (Json.obj [("a", Json.num 1)])
      = walkFields (splitSlash "a/b") (Json.obj [("a", Json.num 1)]))
  ∧ (walkFields ["b"] (Json.obj [("b", Json.num 0)]) = .ok Json.null) :=
  ⟨c3_amended_truthiness_policy.1 "b" [("b", Json.num 0)] (Json.num 0) rfl rfl,
   c3_amended_truthiness_policy.2.1 "a/b" (Json.obj [("a", Json.num 1)]) rfl rfl,
   c3_amended_truthiness_policy.2.2 "b" [] [("b", Json.num 0)] (Json.num 0)
     rfl rfl⟩

/-- Claim C4, counterexample: the cache state right after a successful
initialization holds only the vehicle-list entry; reading any other query
through `get_latest_data` raises `KeyError` instead of reading as `None`. -/
theorem c4_counterexample :
    get_latest_data (some [("getConsumerCarsV2",
        ⟨Json.obj [("vin", Json.str "LPSVSEDEEML00001")], 50⟩)])
      "getOdometerData" (some "odometerMeters") = .error .keyError := rfl

/-- Claim C4 (amended): `get_cache_data` never raises on a missing or stale
entry (both read as `None`), but the accessors are not exception-free:
`get_latest_data` raises `KeyError` whenever the cache dict is non-empty and
lacks the query key, and single-segment field resolution on a non-empty
mapping without that key raises `KeyError` (`data[field_name]`). -/
theorem c4_amended_raising_cases :
    (∀ (c : Cache) (q : String) (f : Option String) (now ttl : Nat) (sc : Bool),
        c.lookup q = none →
        get_cache_data (some c) now ttl (some q) f sc = .ok Json.null)
  ∧ (∀ (c : Cache) (q : String) (f : Option String) (now ttl : Nat)
        (e : CacheEntry), c.lookup q = some e → e.timestamp + ttl ≤ now →
        get_cache_data (some c) now ttl (some q) f false = .ok Json.null)
  ∧ (∀ (c : Cache) (q : String) (f : Option String), c ≠ [] →
        c.lookup q = none → get_latest_data (some c) q f = .error .keyError)
  ∧ (∀ (f : String) (fields : List (String × Json)), containsSlash f = false →
        fields ≠ [] → fields.lookup f = none →
        getFieldNameValue (some f) (Json.obj fields) = .error .keyError) := by
  refine ⟨?_, ?_, ?_, ?_⟩
  · intro c q f now ttl sc hq
    exact get_cache_data_missing c q f now ttl sc hq
  · intro c q f now ttl e hq hs
    exact get_cache_data_stale c q f now ttl e hq hs
  · intro c q f hne hq
    exact get_latest_data_missing c q f hne hq
  · intro f fields hslash hne hlook
    cases fields with
    | nil => exact absurd rfl hne
    | cons p tl => simp [getFieldNameValue, truthy, hslash, pyIndexStr, hlook]

theorem c4_amended_witness :
    (get_cache_data (some [("getBatteryData", ⟨Json.num 1, 0⟩)]) 0 30
        (some "getOdometerData") (some "odometerMeters") false = .ok Json.null)
  ∧ (get_cache_data (some [("getBatteryData", ⟨Json.num 1, 0⟩)]) 30 30
        (some "getBatteryData") (some "x") false = .ok Json.null)
  ∧ (get_latest_data (some [("getBatteryData", ⟨Json.num 1, 0⟩)])
        "getOdometerData" (some "odometerMeters") = .error .keyError)
  ∧ (getFieldNameValue (some "odometerMeters") (Json.obj [("vin", Json.num 1)])
        = .error .keyError) :=
  ⟨c4_amended_raising_cases.1 [("getBatteryData", ⟨Json.num 1, 0⟩)]
      "getOdometerData" (some "odometerMeters") 0 30 false rfl,
   c4_amended_raising_cases.2.1 [("getBatteryData", ⟨Json.num 1, 0⟩)]
      "getBatteryData" (some "x") 30 30 ⟨Json.num 1, 0⟩ rfl (by norm_num),
   c4_amended_raising_cases.2.2.1 [("getBatteryData", ⟨Json.num 1, 0⟩)]
      "getOdometerData" (some "odometerMeters") (by simp) rfl,
   c4_amended_raising_cases.2.2.2 "odometerMeters" [("vin", Json.num 1)] rfl
      (by simp) rfl⟩

/-- Claim C5, counterexample: with a non-empty cache that has no entry for the
query, `get_latest_data` raises `KeyError` rather than returning `None`. -/
theorem c5_counterexample :
    get_latest_data (some [("getBatteryData", ⟨Json.null, 5⟩)])
      "getOdometerData" (some "odometerMeters") = .error .keyError
  ∧ (Except.error PyError.keyError : Except PyError Json) ≠ .ok Json.null :=
  ⟨rfl, by simp⟩

/-- Claim C5 (amended): `get_latest_data` returns `None` only when the whole
cache dict is empty; a non-empty cache without the query raises `KeyError`;
an entry with null data returns `False`; otherwise it resolves the field
against the entry's data — and in every case no timestamp or TTL is consulted
(the function takes no notion of time at all). -/
theorem c5_amended_get_latest_cases :
    (∀ (q : String) (f : Option String),
        get_latest_data (some []) q f = .ok Json.null)
  ∧ (∀ (c : Cache) (q : String) (f : Option String), c ≠ [] →
        c.lookup q = none → get_latest_data (some c) q f = .error .keyError)
  ∧ (∀ (c : Cache) (q : String) (f : Option String) (e : CacheEntry),
        c.lookup q = some e → e.data = Json.null →
        get_latest_data (some c) q f = .ok (.bool false))
  ∧ (∀ (c : Cache) (q : String) (f : Option String) (e : CacheEntry),
        c.lookup q = some e → e.data ≠ Json.null →
        get_latest_data (some c) q f = getFieldNameValue f e.data) :=
  ⟨fun _ _ => rfl,
   get_latest_data_missing,
   get_latest_data_null,
   get_latest_data_found⟩

theorem c5_amended_witness :
    (get_latest_data (some []) "getOdometerData" (some "odometerMeters")
      = .ok Json.null)
  ∧ (get_latest_data (some [("getBatteryData", ⟨Json.num 2, 0⟩)])
        "getOdometerData" none = .error .keyError)
  ∧ (get_latest_data (some [("getOdometerData", ⟨Json.null, 0⟩)])
        "getOdometerData" (some "odometerMeters") = .ok (.bool false))
  ∧ (get_latest_data (some [("getOdometerData",
        ⟨Json.obj [("odometerMeters", Json.num 7)], 0⟩)]) "getOdometerData"
        (some "odometerMeters")
      = getFieldNameValue (some "odometerMeters")
          (Json.obj [("odometerMeters", Json.num 7)])) :=
  ⟨c5_amended_get_latest_cases.1 "getOdometerData" (some "odometerMeters"),
   c5_amended_get_latest_cases.2.1 [("getBatteryData", ⟨Json.num 2, 0⟩)]
      "getOdometerData" none (by simp) rfl,
   c5_amended_get_latest_cases.2.2.1 [("getOdometerData", ⟨Json.null, 0⟩)]
      "getOdometerData" (some "odometerMeters") ⟨Json.null, 0⟩ rfl rfl,
   c5_amended_get_latest_cases.2.2.2 [("getOdometerData",
      ⟨Json.obj [("odometerMeters", Json.num 7)], 0⟩)] "getOdometerData"
      (some "odometerMeters") ⟨Json.obj [("odometerMeters", Json.num 7)], 0⟩
      rfl (by simp)⟩

/-- Claim C7: when the fetched vehicle list is null or empty, `init` raises
`PolestarApiException("No cars found in account")` before touching anything:
the returned state is exactly the input state — no vehicle-list cache entry
is written and no vin/id/name is derived. -/
theorem c7_no_vehicles_raises (st : ApiState) (cars : Json) (now : Nat)
    (h : cars = Json.null ∨ cars = Json.arr []) :
    init st (Json.obj [("data", Json.obj [("getConsumerCarsV2", cars)])]) now
      = (st, some (.polestarApiException "No cars found in account")) := by
  rcases h with h | h <;> subst h <;> rfl

theorem c7_witness :
    init polestarApiConstruct
        (Json.obj [("data", Json.obj [("getConsumerCarsV2", Json.arr [])])]) 0
      = (polestarApiConstruct,
          some (.polestarApiException "No cars found in account")) :=
  c7_no_vehicles_raises polestarApiConstruct (Json.arr []) 0 (Or.inr rfl)
